import Mathlib

/-!
Verification of the payment-gateway reconciliation core of the `bond`
repository (`apps/api/payment_views.py`), as a shallow embedding in Lean 4.

Conventions of the embedding:
* Python `int` values (epoch-millisecond timestamps, minor-unit amounts,
  external transaction ids of the Click protocol) are modelled as `Int`;
  database auto-increment primary keys as `Nat`.
* Django `DecimalField(decimal_places=2)` amounts are modelled as `ℚ`.
  Python `int(Decimal * 100)` truncates toward zero; every amount in this
  code is non-negative, so it is modelled as `Int.floor`.
* Nullable database columns are `Option _`; Python truthiness of an
  optional string (None or "" falsy) and of an optional int (None or 0
  falsy) gets explicit helpers below.
* Each JSON-RPC handler of `PaymeCallBackAPIView` is a pure function of
  its (already parsed) request parameters, the row returned by the ORM
  lookup, and the linked participant row; it returns the JSON-RPC
  response together with the rows as they stand after the call
  (Django `save` = returning the updated record).
-/

namespace Bond

/-- `Order.status`: the `STATUS_CHOICES` of `apps/public/models.py`. -/
inductive OrderStatus where
  | pending
  | paid
  | cancelled
  | failed
deriving DecidableEq, Repr

/-- The two fields of `Participant` owned by the payment core
(`is_paid`, `paid_at`), plus its primary key. `paid_at` is an
epoch-millisecond timestamp, `none` = SQL NULL. -/
structure Participant where
  id : Nat
  is_paid : Bool
  paid_at : Option Int
deriving DecidableEq, Repr

/-- The `Order` model of `apps/public/models.py` restricted to the fields
the payment views read or write.  `created_at_ms`/`updated_at_ms` are the
`created_at`/`updated_at` auto timestamps in epoch milliseconds (these
columns are non-null in the model, hence plain `Int`). -/
structure Order where
  id : Nat
  participant_id : Nat
  total_amount : ℚ
  status : OrderStatus
  payment_method : String
  created_at_ms : Int
  updated_at_ms : Int
  payme_transaction_id : Option String
  payme_create_time : Option Int
  payme_perform_time : Option Int
  payme_cancel_time : Option Int
  payme_state : Option Int
  payme_cancel_reason : Option Int
  click_trans_id : Option Int
  click_prepare_id : Option Int
deriving DecidableEq, Repr

/-- Python truthiness of an optional string column/parameter:
`None` and `""` are falsy (`if not transaction_id`, `if order.payme_transaction_id`). -/
def strTruthy : Option String → Bool
  | some s => decide (s ≠ "")
  | none => false

/-- Python `x or d` for an optional integer `x` (as in
`int(order.payme_create_time or create_time)`): `None` and `0` fall
through to the default. -/
def pyOrI : Option Int → Int → Int
  | some v, d => if v = 0 then d else v
  | none, d => d

/-- Python truthiness of an optional integer (`if not order.payme_cancel_time`). -/
def intTruthy : Option Int → Bool
  | some v => decide (v ≠ 0)
  | none => false

/-- `str.strip()` on ASCII whitespace: drop leading and trailing whitespace. -/
def stripChars (cs : List Char) : List Char :=
  ((cs.dropWhile Char.isWhitespace).reverse.dropWhile Char.isWhitespace).reverse

/-- Python `s.strip()`. -/
def pyStrip (s : String) : String :=
  ⟨stripChars s.data⟩

/-- Payme / Paycom error codes (module-level constants of the source). -/
def ERROR_INTERNAL_SERVER : Int := -32400
def ERROR_INSUFFICIENT_PRIVILEGE : Int := -32504
def ERROR_INVALID_JSON_RPC_OBJECT : Int := -32600
def ERROR_METHOD_NOT_FOUND : Int := -32601
def ERROR_INVALID_PARAMS : Int := -32602
def ERROR_INVALID_AMOUNT : Int := -31001
def ERROR_ORDER_NOT_FOUND : Int := -31050
def ERROR_CANT_PERFORM_OPERATION : Int := -31008
def ERROR_ORDER_ALREADY_PAID : Int := -31051
def ERROR_TRANSACTION_NOT_FOUND : Int := -31003

/-- One element of the `transactions` list of a `GetStatement` reply. -/
structure StatementEntry where
  id : String
  time : Int
  amount : Int
  order_id : Nat
  create_time : Int
  perform_time : Int
  cancel_time : Int
  transaction : String
  state : Int
  reason : Option Int
deriving DecidableEq, Repr

/-- The `result` object of a successful JSON-RPC reply, one constructor per
shape produced by the handlers. -/
inductive RpcResult where
  | allow
  | createRes (create_time : Int) (transaction : String) (state : Int)
  | performRes (perform_time : Int) (transaction : String) (state : Int)
  | cancelRes (cancel_time : Int) (transaction : String) (state : Int)
  | checkRes (create_time : Int) (perform_time : Int) (cancel_time : Int)
      (transaction : String) (state : Int) (reason : Option Int)
  | statement (transactions : List StatementEntry)
deriving DecidableEq, Repr

/-- A JSON-RPC reply: `_success` or `_error` of the view (the echoed
envelope id, the error code, the optional `data` string). -/
inductive RpcResponse where
  | success (rpc_id : Option Int) (result : RpcResult)
  | error (rpc_id : Option Int) (code : Int) (data : Option String)
deriving DecidableEq, Repr

/-- `_expected_amount_tiyin`: `int(Decimal(str(order.total_amount)) * Decimal("100"))`.
`total_amount` is stored in SUM (major unit), Payme speaks TIYIN; `int()`
truncation equals `⌊·⌋` for the non-negative amounts stored here. -/
def expected_amount_tiyin (o : Order) : Int :=
  ⌊o.total_amount * 100⌋

/-- `_check_perform_transaction` (read-only): parameter guards, ORM lookup
result, status checks, then exact integer amount comparison. -/
def checkPerformTransaction (rid : Option Int)
    (p_order_id p_amount : Option Int) (lookup : Option Order) : RpcResponse :=
  match p_order_id with
  | none => .error rid ERROR_INVALID_PARAMS (some "order_id")
  | some _ =>
  match p_amount with
  | none => .error rid ERROR_INVALID_PARAMS (some "amount")
  | some amount_tiyin =>
  match lookup with
  | none => .error rid ERROR_ORDER_NOT_FOUND (some "order_id")
  | some order =>
    if order.status = .paid then
      .error rid ERROR_ORDER_ALREADY_PAID (some "order_id")
    else if order.status = .cancelled then
      .error rid ERROR_ORDER_NOT_FOUND (some "order_id")
    else if amount_tiyin ≠ expected_amount_tiyin order then
      .error rid ERROR_INVALID_AMOUNT (some "amount")
    else
      .success rid .allow

/-- `_create_transaction`.  Arguments: current clock in epoch ms, envelope
id, the parsed `account.order_id` and `amount` params, the `id`
(external transaction id) and `time` params, and the row found by
`Order.objects.select_for_update().filter(id=order_id).first()`.
Returns the reply and the order row after the call. -/
def createTransaction (now_ms : Int) (rid : Option Int)
    (p_order_id p_amount : Option Int) (p_id : Option String) (p_time : Option Int)
    (lookup : Option Order) : RpcResponse × Option Order :=
  match p_order_id with
  | none => (.error rid ERROR_INVALID_PARAMS (some "order_id"), lookup)
  | some _ =>
  match p_amount with
  | none => (.error rid ERROR_INVALID_PARAMS (some "amount"), lookup)
  | some amount_tiyin =>
  -- `if not transaction_id`: missing or empty id parameter is rejected
  if strTruthy p_id = false then (.error rid ERROR_INVALID_PARAMS (some "id"), lookup) else
  let transaction_id := p_id.getD ""
  -- `if create_time is None: create_time = self._now_ms()` (0 is kept as 0)
  let create_time := p_time.getD now_ms
  match lookup with
  | none => (.error rid ERROR_ORDER_NOT_FOUND (some "order_id"), none)
  | some order =>
    if amount_tiyin ≠ expected_amount_tiyin order then
      (.error rid ERROR_INVALID_AMOUNT (some "amount"), some order)
    else if order.status = .paid then
      (.error rid ERROR_ORDER_ALREADY_PAID (some "order_id"), some order)
    else if order.status = .cancelled then
      (.error rid ERROR_ORDER_NOT_FOUND (some "order_id"), some order)
    else if strTruthy order.payme_transaction_id then
      -- order already carries a transaction
      if order.payme_transaction_id = some transaction_id then
        -- idempotent replay: same id must return the SAME create_time/state
        let stored_ct := pyOrI order.payme_create_time create_time
        let stored_state := pyOrI order.payme_state 1
        (.success rid (.createRes stored_ct transaction_id stored_state), some order)
      else
        -- a different transaction for the same order: "Order is busy"
        (.error rid ERROR_ORDER_NOT_FOUND (some "order_id"), some order)
    else
      -- bind the new transaction and persist
      let o' := { order with
        payme_transaction_id := some transaction_id,
        payme_create_time := some create_time,
        payme_state := some 1 }
      (.success rid (.createRes create_time transaction_id 1), some o')

/-- `_perform_transaction`.  The lookup is
`Order.objects.select_for_update().filter(payme_transaction_id=str(id)).first()`;
`p` is the linked participant row (read only when `order.participant_id` is
truthy).  An exception inside the handler (here: `int(None)` on a cancelled
order with no stored state) surfaces as the `post` dispatcher's
internal-server fault with the atomic block rolled back. -/
def performTransaction (now_ms : Int) (rid : Option Int) (p_id : Option String)
    (lookup : Option Order) (p : Participant) :
    RpcResponse × Option Order × Participant :=
  if strTruthy p_id = false then (.error rid ERROR_INVALID_PARAMS (some "id"), lookup, p) else
  let transaction_id := p_id.getD ""
  match lookup with
  | none => (.error rid ERROR_TRANSACTION_NOT_FOUND (some "id"), none, p)
  | some order =>
    if order.payme_state = some (-1) ∨ order.payme_state = some (-2) ∨
        order.status = .cancelled then
      -- cancelled: cannot perform, reply with the stored cancellation fields
      let stored_cancel_time := pyOrI order.payme_cancel_time 0
      match order.payme_state with
      | some stored_state =>
          (.success rid (.cancelRes stored_cancel_time transaction_id stored_state),
           some order, p)
      | none =>
          -- `int(order.payme_state)` raises TypeError on NULL
          (.error rid ERROR_INTERNAL_SERVER none, some order, p)
    else if order.payme_state = some 2 ∨ order.status = .paid then
      -- idempotent replay of the stored perform_time
      let pt := pyOrI order.payme_perform_time 0
      (.success rid (.performRes pt transaction_id 2), some order, p)
    else
      let o' := { order with
        status := OrderStatus.paid,
        payme_state := some 2,
        payme_perform_time := some now_ms }
      let p' := if order.participant_id ≠ 0 then
          { p with is_paid := true, paid_at := some now_ms } else p
      (.success rid (.performRes now_ms transaction_id 2), some o', p')

/-- `was_performed` of `_cancel_transaction`:
`(perform_time_db > 0) or (order.payme_state == 2) or (order.status == "paid")`. -/
def wasPerformed (o : Order) : Bool :=
  decide (pyOrI o.payme_perform_time 0 > 0 ∨ o.payme_state = some 2 ∨
    o.status = OrderStatus.paid)

/-- `_cancel_transaction`. -/
def cancelTransaction (now_ms : Int) (rid : Option Int)
    (p_id : Option String) (p_reason : Option Int)
    (lookup : Option Order) (p : Participant) :
    RpcResponse × Option Order × Participant :=
  if strTruthy p_id = false then (.error rid ERROR_INVALID_PARAMS (some "id"), lookup, p) else
  let transaction_id := p_id.getD ""
  match lookup with
  | none => (.error rid ERROR_TRANSACTION_NOT_FOUND (some "id"), none, p)
  | some order =>
    if order.status = .cancelled ∨ order.payme_state = some (-1) ∨
        order.payme_state = some (-2) then
      -- already cancelled: idempotent reply, self-healing a wrong stored state once
      let expected_state : Int := if wasPerformed order then -2 else -1
      let healed :=
        if pyOrI order.payme_state 0 ≠ expected_state then
          let o1 := if intTruthy order.payme_cancel_time = false then
              { order with payme_cancel_time := some now_ms } else order
          let o2 := { o1 with payme_state := some expected_state }
          if o2.payme_cancel_reason = none then
            { o2 with payme_cancel_reason := some (match p_reason with
                | some r => r
                | none => if wasPerformed order then 5 else 3) }
          else o2
        else order
      match healed.payme_state with
      | some st =>
          (.success rid (.cancelRes (pyOrI healed.payme_cancel_time 0) transaction_id st),
           some healed, p)
      | none =>
          -- unreachable: the heal branch always stores a state; `int(None)` would raise
          (.error rid ERROR_INTERNAL_SERVER none, some order, p)
    else
      -- first cancellation
      let state : Int := if wasPerformed order then -2 else -1
      let reason : Int := match p_reason with
        | some r => r
        | none => if wasPerformed order then 5 else 3
      -- perform_time is kept when was_performed (needed for state -2),
      -- zeroed explicitly otherwise
      let o' := { order with
        status := OrderStatus.cancelled,
        payme_state := some state,
        payme_cancel_time := some now_ms,
        payme_cancel_reason := some reason,
        payme_perform_time :=
          if wasPerformed order then order.payme_perform_time else some 0 }
      let p' := if wasPerformed order ∧ order.participant_id ≠ 0 then
          { p with is_paid := false, paid_at := none } else p
      (.success rid (.cancelRes now_ms transaction_id state), some o', p')

/-- The `state` local of `_check_transaction`: `int(order.payme_state or 1)`. -/
def checkState (o : Order) : Int :=
  pyOrI o.payme_state 1

/-- The (backfilled) `create_time` local of `_check_transaction`: the
stored value, or the order's creation timestamp when not positive
(`created_at` is a non-null auto column, so its `getattr(..., None)`
guard is always truthy and the `_now_ms()` fallback is dead code). -/
def checkCreateTime (o : Order) : Int :=
  if pyOrI o.payme_create_time 0 ≤ 0 then o.created_at_ms
  else pyOrI o.payme_create_time 0

/-- The (backfilled) `cancel_time` local of `_check_transaction`: in the
cancelled states a non-positive stored value is replaced by the order's
last-update timestamp (`updated_at` non-null likewise). -/
def checkCancelTime (o : Order) : Int :=
  if (checkState o = -1 ∨ checkState o = -2) ∧ pyOrI o.payme_cancel_time 0 ≤ 0 then
    o.updated_at_ms
  else pyOrI o.payme_cancel_time 0

/-- The `perform_time` local of `_check_transaction`: state -1 (cancelled
BEFORE perform) reports 0; states -2 and 2 report the stored value,
defaulting to the (backfilled) create_time; any other state reports 0. -/
def checkPerformTime (o : Order) : Int :=
  if checkState o = -1 then 0
  else if checkState o = -2 then
    (if pyOrI o.payme_perform_time 0 > 0 then pyOrI o.payme_perform_time 0
     else checkCreateTime o)
  else if checkState o = 2 then
    (if pyOrI o.payme_perform_time 0 > 0 then pyOrI o.payme_perform_time 0
     else checkCreateTime o)
  else 0

/-- The `reason` field of the `_check_transaction` reply: the stored
cancel reason in cancelled states, `None` otherwise. -/
def checkReason (o : Order) : Option Int :=
  if (checkState o = -1 ∨ checkState o = -2) ∧ o.payme_cancel_reason ≠ none then
    o.payme_cancel_reason
  else none

/-- `_check_transaction` (read-only). -/
def checkTransaction (rid : Option Int) (p_id : Option String)
    (lookup : Option Order) : RpcResponse :=
  if strTruthy p_id = false then .error rid ERROR_INVALID_PARAMS (some "id") else
  let transaction_id := p_id.getD ""
  match lookup with
  | none => .error rid ERROR_TRANSACTION_NOT_FOUND (some "id")
  | some order =>
    .success rid (.checkRes (checkCreateTime order) (checkPerformTime order)
      (if checkState order = -1 ∨ checkState order = -2 then checkCancelTime order else 0)
      transaction_id (checkState order) (checkReason order))

/-- The queryset filter of `_get_statement`:
`payme_transaction_id__isnull=False, payme_create_time__isnull=False,
payme_create_time__gte=from_ts, payme_create_time__lte=to_ts`. -/
def statementSelects (from_ts to_ts : Int) (o : Order) : Bool :=
  o.payme_transaction_id.isSome &&
  (match o.payme_create_time with
   | some ct => decide (from_ts ≤ ct) && decide (ct ≤ to_ts)
   | none => false)

/-- One `tx` dict built in the loop of `_get_statement`.  The `amount`
computation is the same `int(Decimal(str(total_amount)) * Decimal("100"))`
as `_expected_amount_tiyin`. -/
def statementEntry (o : Order) : StatementEntry :=
  let create_time := pyOrI o.payme_create_time 0
  let perform_time := pyOrI o.payme_perform_time 0
  let cancel_time := pyOrI o.payme_cancel_time 0
  let state := pyOrI o.payme_state 1
  { id := o.payme_transaction_id.getD ""
    time := create_time
    amount := expected_amount_tiyin o
    order_id := o.id
    create_time := create_time
    perform_time := if perform_time > 0 then perform_time else 0
    cancel_time := if state = -1 ∨ state = -2 then cancel_time else 0
    transaction := o.payme_transaction_id.getD ""
    state := state
    reason := if (state = -1 ∨ state = -2) ∧ o.payme_cancel_reason ≠ none then
        o.payme_cancel_reason else none }

/-- `_get_statement` over the order table.  `none` for `from`/`to` stands
for a missing or non-integer parameter (the `int(...)` try/except). -/
def getStatement (rid : Option Int) (p_from p_to : Option Int)
    (orders : List Order) : RpcResponse :=
  match p_from, p_to with
  | some from_ts, some to_ts =>
    if from_ts > to_ts then .error rid ERROR_INVALID_PARAMS (some "from>to")
    else
      .success rid (.statement
        ((orders.filter (statementSelects from_ts to_ts)).map statementEntry))
  | _, _ => .error rid ERROR_INVALID_PARAMS (some "from/to")

/-- The parsed `params` object of a request (`data.get("params") or {}`),
each field already through the corresponding parse helper
(`_get_order_id`, `_get_amount_tiyin`, `params.get(...)`, the
`int(...)` conversions of `_get_statement`): `none` = absent or unparsable. -/
structure RpcParams where
  order_id : Option Int := none
  amount : Option Int := none
  id : Option String := none
  time : Option Int := none
  reason : Option Int := none
  from_ts : Option Int := none
  to_ts : Option Int := none
deriving DecidableEq, Repr

/-- A parsed JSON-RPC request body (`data`); a `none` body at the call
site of `post` stands for unparsable JSON or a falsy (empty) object. -/
structure RpcData where
  rpc_id : Option Int := none
  method : Option String := none
  params : RpcParams := {}
deriving DecidableEq, Repr

/-- The persistent state the callback endpoints read and write. -/
structure World where
  orders : List Order
  participants : List Participant
deriving DecidableEq, Repr

/-- `Order.objects.filter(id=order_id).first()` (an absent `order_id`
parameter never reaches the query: the handlers reject it first). -/
def lookupById (w : World) (oid : Option Int) : Option Order :=
  match oid with
  | some i => w.orders.find? (fun o => decide ((o.id : Int) = i))
  | none => none

/-- `Order.objects.filter(payme_transaction_id=str(transaction_id)).first()`. -/
def lookupByTx (w : World) (tx : Option String) : Option Order :=
  match tx with
  | some s => w.orders.find? (fun o => decide (o.payme_transaction_id = some s))
  | none => none

/-- `order.participant` for the looked-up order; foreign-key integrity
(the FK is non-null and CASCADE) guarantees the row exists, so the
default row of the `getD` is never the one actually used. -/
def participantOf (w : World) (lookup : Option Order) : Participant :=
  match lookup with
  | some o => (w.participants.find? (fun p => decide (p.id = o.participant_id))).getD
      { id := 0, is_paid := false, paid_at := none }
  | none => { id := 0, is_paid := false, paid_at := none }

/-- `order.save(...)`: write the updated row back by primary key. -/
def saveOrder (w : World) (lookup : Option Order) : World :=
  match lookup with
  | some o => { w with orders := w.orders.map (fun x => if x.id = o.id then o else x) }
  | none => w

/-- `participant.save(...)` after an order save. -/
def saveOrderAndParticipant (w : World) (lookup : Option Order) (p : Participant) : World :=
  let w1 := saveOrder w lookup
  { w1 with participants := w1.participants.map (fun x => if x.id = p.id then p else x) }

/-- `PaymeCallBackAPIView.post`: JSON parse guard, the PAYME_KEY presence
check, `_verify_auth` (its outcome abstracted as `auth_ok` — it is a pure
function of the Authorization header and the configured key), then the
method dispatch table.  `payme_key` is `getattr(settings, "PAYME_KEY", None)`. -/
def post (now_ms : Int) (payme_key : Option String) (auth_ok : Bool)
    (data : Option RpcData) (w : World) : RpcResponse × World :=
  match data with
  | none => (.error none ERROR_INVALID_JSON_RPC_OBJECT none, w)
  | some d =>
    let rid := d.rpc_id
    -- require key always: `if not (getattr(settings, "PAYME_KEY", None) or "").strip()`
    if pyStrip (payme_key.getD "") = "" then
      (.error rid ERROR_INSUFFICIENT_PRIVILEGE none, w)
    else if auth_ok = false then
      (.error rid ERROR_INSUFFICIENT_PRIVILEGE none, w)
    else
      match d.method with
      | some m =>
        if m = "CheckPerformTransaction" then
          (checkPerformTransaction rid d.params.order_id d.params.amount
            (lookupById w d.params.order_id), w)
        else if m = "CreateTransaction" then
          let r := createTransaction now_ms rid d.params.order_id d.params.amount
            d.params.id d.params.time (lookupById w d.params.order_id)
          (r.1, saveOrder w r.2)
        else if m = "PerformTransaction" then
          let lk := lookupByTx w d.params.id
          let r := performTransaction now_ms rid d.params.id lk (participantOf w lk)
          (r.1, saveOrderAndParticipant w r.2.1 r.2.2)
        else if m = "CancelTransaction" then
          let lk := lookupByTx w d.params.id
          let r := cancelTransaction now_ms rid d.params.id d.params.reason lk
            (participantOf w lk)
          (r.1, saveOrderAndParticipant w r.2.1 r.2.2)
        else if m = "CheckTransaction" then
          (checkTransaction rid d.params.id (lookupByTx w d.params.id), w)
        else if m = "GetStatement" then
          (getStatement rid d.params.from_ts d.params.to_ts w.orders, w)
        else (.error rid ERROR_METHOD_NOT_FOUND none, w)
      | none => (.error rid ERROR_METHOD_NOT_FOUND none, w)

/-! ### Click (two-phase) callback — `ClickCallbackView` -/

/-- Click error codes. -/
def CLICK_ERROR_SUCCESS : Int := 0
def CLICK_ERROR_SIGN_CHECK_FAILED : Int := -1
def CLICK_ERROR_INVALID_AMOUNT : Int := -2
def CLICK_ERROR_ACTION_NOT_FOUND : Int := -3
def CLICK_ERROR_ALREADY_PAID : Int := -4
def CLICK_ERROR_USER_NOT_FOUND : Int := -5
def CLICK_ERROR_TRANSACTION_NOT_FOUND : Int := -6
def CLICK_ERROR_TRANSACTION_CANCELLED : Int := -9

/-- The flat reply object built by `ClickCallbackView._response`. -/
structure ClickResponse where
  click_trans_id : Int
  merchant_trans_id : String
  merchant_prepare_id : Int
  error : Int
  error_note : String
deriving DecidableEq, Repr

/-- The amount verification of `ClickCallbackView.post`:
`abs(float(order.total_amount) - float(amount)) > 0.01` rejects.  Python
floats are modelled as `ℚ`; at the magnitudes this code compares the
float rounding noise is far below the 0.01 tolerance. -/
def clickAmountOk (expected_amount received_amount : ℚ) : Bool :=
  decide (|expected_amount - received_amount| ≤ 1 / 100)

/-- `ClickCallbackView._handle_prepare` (action = 0).  Returns the reply
and the order row after the call.  Note the source explicitly falls
through (`pass`) when a *different* `click_trans_id` is already stored,
then overwrites it unconditionally. -/
def handlePrepare (order : Order) (click_trans_id : Int)
    (merchant_trans_id : String) (_err : Int) : ClickResponse × Order :=
  if order.status = .paid then
    ({ click_trans_id := click_trans_id, merchant_trans_id := merchant_trans_id,
       merchant_prepare_id := (order.id : Int), error := CLICK_ERROR_ALREADY_PAID,
       error_note := "Already paid" }, order)
  else if order.status = .cancelled then
    ({ click_trans_id := click_trans_id, merchant_trans_id := merchant_trans_id,
       merchant_prepare_id := (order.id : Int), error := CLICK_ERROR_TRANSACTION_CANCELLED,
       error_note := "Order cancelled" }, order)
  else
    -- an already-stored different click_trans_id is NOT rejected: reset for
    -- the new transaction, then bind and save
    let o' := { order with
      click_trans_id := some click_trans_id,
      click_prepare_id := some (order.id : Int),  -- order.id reused as prepare_id
      payment_method := "click" }
    ({ click_trans_id := click_trans_id, merchant_trans_id := merchant_trans_id,
       merchant_prepare_id := (order.id : Int), error := CLICK_ERROR_SUCCESS,
       error_note := "Success" }, o')

/-- `ClickCallbackView._handle_complete` (action = 1).  `now_ms` is the
`timezone.now()` used for `paid_at`. -/
def handleComplete (now_ms : Int) (order : Order) (p : Participant)
    (click_trans_id : Int) (merchant_trans_id : String)
    (merchant_prepare_id : Int) (err : Int) :
    ClickResponse × Order × Participant :=
  if err < 0 then
    -- Click is cancelling this payment
    let o' := if order.status ≠ .paid then { order with status := OrderStatus.cancelled }
      else order
    ({ click_trans_id := click_trans_id, merchant_trans_id := merchant_trans_id,
       merchant_prepare_id := merchant_prepare_id,
       error := CLICK_ERROR_TRANSACTION_CANCELLED, error_note := "Cancelled" }, o', p)
  else if order.status = .paid then
    ({ click_trans_id := click_trans_id, merchant_trans_id := merchant_trans_id,
       merchant_prepare_id := merchant_prepare_id,
       error := CLICK_ERROR_ALREADY_PAID, error_note := "Already paid" }, order, p)
  else if order.status = .cancelled then
    ({ click_trans_id := click_trans_id, merchant_trans_id := merchant_trans_id,
       merchant_prepare_id := merchant_prepare_id,
       error := CLICK_ERROR_TRANSACTION_CANCELLED, error_note := "Order cancelled" },
     order, p)
  else if order.click_prepare_id ≠ some merchant_prepare_id then
    ({ click_trans_id := click_trans_id, merchant_trans_id := merchant_trans_id,
       merchant_prepare_id := merchant_prepare_id,
       error := CLICK_ERROR_TRANSACTION_NOT_FOUND, error_note := "Prepare ID mismatch" },
     order, p)
  else
    let o' := { order with status := OrderStatus.paid }
    let p' := if order.participant_id ≠ 0 then
        { p with is_paid := true, paid_at := some now_ms } else p
    ({ click_trans_id := click_trans_id, merchant_trans_id := merchant_trans_id,
       merchant_prepare_id := merchant_prepare_id,
       error := CLICK_ERROR_SUCCESS, error_note := "Success" }, o', p')

/-! ### Order initiation — `InitiatePaymentView` / `InitiateClickPaymentView` -/

/-- A row of the filtered `Subject` queryset of the initiation views
(already satisfying `olympiad__is_active=True, ticket_price__gt=0`). -/
structure Subject where
  id : Nat
  ticket_price : ℚ
deriving DecidableEq, Repr

/-- A fresh pending order as created during initiation. -/
def newOrder (oid participant_id : Nat) (now_ms : Int) (amount : ℚ)
    (method : String) : Order :=
  { id := oid, participant_id := participant_id, total_amount := amount,
    status := OrderStatus.pending, payment_method := method,
    created_at_ms := now_ms, updated_at_ms := now_ms,
    payme_transaction_id := none, payme_create_time := none,
    payme_perform_time := none, payme_cancel_time := none,
    payme_state := none, payme_cancel_reason := none,
    click_trans_id := none, click_prepare_id := none }

/-- The `for subj in ...: Order.objects.create(..., total_amount=subj.ticket_price, ...)`
loop shared by both initiation views: one order per subject, each with its
own ticket price, ids assigned consecutively starting at `nextId`. -/
def perItemOrders (participant_id nextId : Nat) (now_ms : Int) (method : String) :
    List Subject → List Order
  | [] => []
  | s :: rest =>
    newOrder nextId participant_id now_ms s.ticket_price method
      :: perItemOrders participant_id (nextId + 1) now_ms method rest

/-- `total_amount = sum(s.ticket_price for s in subjects)`. -/
def sumPrices (subject_list : List Subject) : ℚ :=
  (subject_list.map Subject.ticket_price).sum

/-- The order rows created by `InitiatePaymentView.post` (Payme) for a
non-empty filtered selection: the FIRST order carries the aggregate
total, the remaining ones their own ticket price. -/
def initiatePaymeOrders (participant_id firstId : Nat) (now_ms : Int)
    (subject_list : List Subject) : List Order :=
  match subject_list with
  | [] => []
  | s0 :: rest =>
    newOrder firstId participant_id now_ms (sumPrices (s0 :: rest)) "payme"
      :: perItemOrders participant_id (firstId + 1) now_ms "payme" rest

/-- The pay-link reference built by `InitiatePaymentView.post`:
`generate_pay_link(order_id=first_order.id, amount_tiyin=int(total_amount * 100))`. -/
def initiatePaymePayLink (firstId : Nat) (subject_list : List Subject) : Nat × Int :=
  (firstId, ⌊sumPrices subject_list * 100⌋)

/-- The order rows created by `InitiateClickPaymentView.post`: one order
per subject, EVERY one (the first included) with its own ticket price. -/
def initiateClickOrders (participant_id firstId : Nat) (now_ms : Int)
    (subject_list : List Subject) : List Order :=
  perItemOrders participant_id firstId now_ms "click" subject_list

/-- The pay-link reference built by `InitiateClickPaymentView.post`:
`generate_click_pay_link(order_id=first_order.id, amount=int(total_amount))`
(amount in SUM, not tiyin). -/
def initiateClickPayLink (firstId : Nat) (subject_list : List Subject) : Nat × Int :=
  (firstId, ⌊sumPrices subject_list⌋)

/-! ## Helper lemmas -/

/-- The per-item creation loop assigns each order its own ticket price. -/
theorem perItemOrders_map_amount (participant_id nextId : Nat) (now_ms : Int)
    (method : String) (l : List Subject) :
    (perItemOrders participant_id nextId now_ms method l).map Order.total_amount
      = l.map Subject.ticket_price := by
  induction l generalizing nextId with
  | nil => rfl
  | cons s rest ih => simp [perItemOrders, newOrder, ih]

/-- For a rational with denominator 1 (a 2-decimal amount times 100),
matching the truncated integer is the same as matching the exact product. -/
theorem eq_floor_iff_cast_eq (q : ℚ) (hq : q.den = 1) (a : Int) :
    a = ⌊q⌋ ↔ (a : ℚ) = q := by
  have h1 : ((q.num : ℚ)) = q := Rat.coe_int_num_of_den_eq_one hq
  have h2 : ⌊q⌋ = q.num := by
    nth_rewrite 1 [← h1]
    exact Int.floor_intCast q.num
  rw [h2]
  constructor
  · intro h
    rw [h]
    exact h1
  · intro h
    exact_mod_cast h.trans h1.symm

/-! ## Claims -/

/-- C1: For every order-initiation request with a non-empty valid
selection, the first Order created has `total_amount` equal to the sum of
the selected ticket prices, and the pay-link references that first
order's id with the aggregate amount; subsequent orders carry their own
item's price.  TRUE for the Payme endpoint (first conjunct, for all
selections); FALSE for the Click endpoint: at the concrete selection of
two subjects priced 100 and 200 the first created order carries 100 (its
own price, not the aggregate 300), while the pay-link still carries the
aggregate 300 — which the Click callback's own amount check then rejects
against that order, so the generated link can never be paid. -/
theorem initiation_first_order_aggregate :
    (∀ (participant_id firstId : Nat) (now_ms : Int) (s0 : Subject)
        (rest : List Subject),
      (initiatePaymeOrders participant_id firstId now_ms (s0 :: rest)).map
          Order.total_amount
        = sumPrices (s0 :: rest) :: rest.map Subject.ticket_price
      ∧ (initiatePaymeOrders participant_id firstId now_ms (s0 :: rest)).head?.map
          Order.id = some firstId
      ∧ initiatePaymePayLink firstId (s0 :: rest)
        = (firstId, ⌊sumPrices (s0 :: rest) * 100⌋))
    ∧ ((initiateClickOrders 7 10 0 [⟨1, 100⟩, ⟨2, 200⟩]).map Order.total_amount
        = [100, 200]
      ∧ sumPrices [⟨1, 100⟩, ⟨2, 200⟩] = 300
      ∧ initiateClickPayLink 10 [⟨1, 100⟩, ⟨2, 200⟩] = (10, 300)
      ∧ clickAmountOk 100 300 = false) := by
  constructor
  · intro participant_id firstId now_ms s0 rest
    refine ⟨?_, rfl, rfl⟩
    simp [initiatePaymeOrders, newOrder, perItemOrders_map_amount]
  · refine ⟨?_, ?_, ?_, ?_⟩
    · simp [initiateClickOrders, perItemOrders, newOrder]
    · norm_num [sumPrices]
    · simp only [initiateClickPayLink]
      norm_num [sumPrices]
    · simp only [clickAmountOk]
      norm_num

/-- C2 counterexample: an order already bound to Click transaction id 5
accepts a Prepare callback with id 7: the stored id is overwritten to 7
(no longer 5) and the response is a success, refuting "Click Prepare does
not overwrite the previously bound id". -/
theorem click_prepare_rebinds_counterexample :
    (handlePrepare { newOrder 1 7 1000 100 "payme" with click_trans_id := some 5 }
        7 "1" 0).2.click_trans_id = some 7
    ∧ (handlePrepare { newOrder 1 7 1000 100 "payme" with click_trans_id := some 5 }
        7 "1" 0).1.error = CLICK_ERROR_SUCCESS
    ∧ ¬ (handlePrepare { newOrder 1 7 1000 100 "payme" with click_trans_id := some 5 }
        7 "1" 0).2.click_trans_id = some 5 := by
  refine ⟨rfl, rfl, ?_⟩
  simp [handlePrepare, newOrder, CLICK_ERROR_SUCCESS]

/-- C2 amended: once an order has a bound Payme transaction id, a Create
with a different id is rejected with the busy fault (-31050, "Order is
busy") and the stored id is never rebound; Click Prepare, by contrast, on
an order with a bound `click_trans_id` overwrites the stored id with the
new one and returns success. -/
theorem bound_transaction_id_rebind (now_ms : Int) (rid : Option Int)
    (o : Order) (s T : String) (t? : Option Int)
    (oc : Order) (c c' : Int) (mt : String) (e : Int)
    (hb : o.payme_transaction_id = some s) (hs : s ≠ "") (hT : T ≠ "") (hne : s ≠ T)
    (hstat : o.status = .pending)
    (hbc : oc.click_trans_id = some c) (hcs : oc.status = .pending) :
    (createTransaction now_ms rid (some (o.id : Int))
        (some (expected_amount_tiyin o)) (some T) t? (some o)
      = (.error rid ERROR_ORDER_NOT_FOUND (some "order_id"), some o))
    ∧ (handlePrepare oc c' mt e).2.click_trans_id = some c'
    ∧ (handlePrepare oc c' mt e).1.error = CLICK_ERROR_SUCCESS := by
  have hT' : strTruthy (some T) = true := by simp [strTruthy, hT]
  have hbT : strTruthy o.payme_transaction_id = true := by simp [strTruthy, hb, hs]
  have hneq : o.payme_transaction_id ≠ some T := by
    rw [hb]
    intro hc
    exact hne (Option.some_injective _ hc)
  refine ⟨?_, ?_, ?_⟩
  · simp [createTransaction, hT', hbT, hstat, hneq]
  · simp [handlePrepare, hcs]
  · simp [handlePrepare, hcs]

/-- The concrete Payme-bound order of the C2 witness. -/
def rebindPaymeOrder : Order := { newOrder 1 7 500 100 "payme" with
  payme_transaction_id := some "T1", payme_create_time := some 900, payme_state := some 1 }

/-- The concrete Click-bound order of the C2 witness. -/
def rebindClickOrder : Order := { newOrder 2 7 500 100 "click" with
  click_trans_id := some 5 }

/-- C2 witness. -/
theorem bound_transaction_id_rebind_witness :
    (createTransaction 1000 none (some 1) (some (expected_amount_tiyin rebindPaymeOrder))
        (some "T2") none (some rebindPaymeOrder)
      = (.error none ERROR_ORDER_NOT_FOUND (some "order_id"), some rebindPaymeOrder))
    ∧ (handlePrepare rebindClickOrder 9 "2" 0).2.click_trans_id = some 9
    ∧ (handlePrepare rebindClickOrder 9 "2" 0).1.error = CLICK_ERROR_SUCCESS :=
  bound_transaction_id_rebind 1000 none rebindPaymeOrder "T1" "T2" none
    rebindClickOrder 5 9 "2" 0 rfl (by decide) (by decide) (by decide) rfl rfl rfl

/-- C4: for a pending order, CheckPerform returns the allow signal exactly
when the provider's minor-unit amount equals `total_amount * 100` as an
exact integer, and any other integer amount yields fault -31001. -/
theorem checkPerform_exact_amount (rid : Option Int) (o : Order) (a : Int)
    (hs : o.status = .pending) (hden : (o.total_amount * 100).den = 1) :
    (checkPerformTransaction rid (some (o.id : Int)) (some a) (some o)
        = .success rid .allow ↔ (a : ℚ) = o.total_amount * 100)
    ∧ ((a : ℚ) ≠ o.total_amount * 100 →
        checkPerformTransaction rid (some (o.id : Int)) (some a) (some o)
          = .error rid ERROR_INVALID_AMOUNT (some "amount")) := by
  have key := eq_floor_iff_cast_eq (o.total_amount * 100) hden a
  constructor
  · constructor
    · intro h
      by_contra hne
      have hne' : a ≠ expected_amount_tiyin o := by
        simp only [expected_amount_tiyin]
        exact fun hc => hne (key.mp hc)
      simp [checkPerformTransaction, hs, hne'] at h
    · intro h
      have heq : a = expected_amount_tiyin o := by
        simp only [expected_amount_tiyin]
        exact key.mpr h
      simp [checkPerformTransaction, hs, heq]
  · intro h
    have hne' : a ≠ expected_amount_tiyin o := by
      simp only [expected_amount_tiyin]
      exact fun hc => h (key.mp hc)
    simp [checkPerformTransaction, hs, hne']

/-- C4 witness: `total_amount = 50000.00` accepts minor-unit 5000000 and
rejects 50000 and 5000001. -/
theorem checkPerform_exact_amount_witness :
    (checkPerformTransaction none (some 1) (some 5000000)
        (some (newOrder 1 7 0 50000 "payme")) = .success none .allow)
    ∧ (checkPerformTransaction none (some 1) (some 50000)
        (some (newOrder 1 7 0 50000 "payme"))
        = .error none ERROR_INVALID_AMOUNT (some "amount"))
    ∧ (checkPerformTransaction none (some 1) (some 5000001)
        (some (newOrder 1 7 0 50000 "payme"))
        = .error none ERROR_INVALID_AMOUNT (some "amount")) := by
  have hden : ((newOrder 1 7 0 50000 "payme").total_amount * 100).den = 1 := by
    norm_num [newOrder]
  refine ⟨?_, ?_, ?_⟩
  · exact (checkPerform_exact_amount none (newOrder 1 7 0 50000 "payme") 5000000
      rfl hden).1.mpr (by norm_num [newOrder])
  · exact (checkPerform_exact_amount none (newOrder 1 7 0 50000 "payme") 50000
      rfl hden).2 (by norm_num [newOrder])
  · exact (checkPerform_exact_amount none (newOrder 1 7 0 50000 "payme") 5000001
      rfl hden).2 (by norm_num [newOrder])

/-- C10: with a blank or unset PAYME_KEY, every well-formed RPC request is
answered with the insufficient-privilege fault -32504 before any method
dispatch, with the stored state untouched, whatever the Authorization
header made of the auth check. -/
theorem blank_key_insufficient_privilege (now_ms : Int) (payme_key : Option String)
    (auth_ok : Bool) (d : RpcData) (w : World)
    (hk : pyStrip (payme_key.getD "") = "") :
    post now_ms payme_key auth_ok (some d) w
      = (.error d.rpc_id ERROR_INSUFFICIENT_PRIVILEGE none, w) := by
  simp [post, hk]

/-- C10 witness. -/
theorem blank_key_insufficient_privilege_witness :
    post 5 (some "  ") true
        (some { rpc_id := some 3, method := some "CreateTransaction" })
        ⟨[newOrder 1 7 0 100 "payme"], [⟨7, false, none⟩]⟩
      = (.error (some 3) ERROR_INSUFFICIENT_PRIVILEGE none,
         ⟨[newOrder 1 7 0 100 "payme"], [⟨7, false, none⟩]⟩) :=
  blank_key_insufficient_privilege 5 (some "  ") true
    { rpc_id := some 3, method := some "CreateTransaction" }
    ⟨[newOrder 1 7 0 100 "payme"], [⟨7, false, none⟩]⟩ (by decide)

/-- C3: after a successful first Create stored `(create_time, state)`, a
second Create with the same external transaction id replays exactly the
stored create_time and state and leaves the order's Payme sub-state
(transaction id, create_time, state) unchanged, whatever clock or `time`
parameter the replay carries. -/
theorem create_replay_idempotent (now1 now2 : Int) (rid1 rid2 : Option Int)
    (o : Order) (T : String) (t : Int) (t2? : Option Int)
    (hT : T ≠ "") (ht : t ≠ 0) (hs : o.status = .pending)
    (hb : strTruthy o.payme_transaction_id = false) :
    ∃ o1,
      createTransaction now1 rid1 (some (o.id : Int)) (some (expected_amount_tiyin o))
          (some T) (some t) (some o)
        = (.success rid1 (.createRes t T 1), some o1)
      ∧ o1.payme_transaction_id = some T
      ∧ o1.payme_create_time = some t
      ∧ o1.payme_state = some 1
      ∧ createTransaction now2 rid2 (some (o1.id : Int)) (some (expected_amount_tiyin o1))
          (some T) t2? (some o1)
        = (.success rid2 (.createRes t T 1), some o1) := by
  have hT' : strTruthy (some T) = true := by simp [strTruthy, hT]
  refine ⟨{ o with
      payme_transaction_id := some T, payme_create_time := some t,
      payme_state := some 1 }, ?_, rfl, rfl, rfl, ?_⟩
  · simp [createTransaction, hT', hs, hb]
  · simp [createTransaction, hT', hs, pyOrI, ht]

/-- The concrete pending order of the C3 witness. -/
def replayOrder : Order := newOrder 1 7 500 100 "payme"

/-- C3 witness. -/
theorem create_replay_idempotent_witness :
    ∃ o1,
      createTransaction 600 none (some 1) (some (expected_amount_tiyin replayOrder))
          (some "TX") (some 900) (some replayOrder)
        = (.success none (.createRes 900 "TX" 1), some o1)
      ∧ o1.payme_transaction_id = some "TX"
      ∧ o1.payme_create_time = some 900
      ∧ o1.payme_state = some 1
      ∧ createTransaction 700 (some 2) (some 1) (some (expected_amount_tiyin o1))
          (some "TX") (some 900) (some o1)
        = (.success (some 2) (.createRes 900 "TX" 1), some o1) := by
  rcases create_replay_idempotent 600 700 none (some 2) replayOrder "TX" 900 (some 900)
      (by decide) (by decide) rfl rfl with ⟨o1, h1, h2, h3, h4, h5⟩
  exact ⟨o1, h1, h2, h3, h4, h5⟩

/-- C5: the first Cancel on a not-yet-cancelled transaction stamps
`cancel_time = now`, sets state -2 keeping the stored perform_time and
clearing the buyer's `is_paid`/`paid_at` when `was_performed`, and
otherwise sets state -1 zeroing perform_time; an omitted reason defaults
to 5 if `was_performed` else 3. -/
theorem cancel_first_transition (now_ms : Int) (rid : Option Int) (o : Order)
    (p : Participant) (T : String) (p_reason : Option Int)
    (hT : T ≠ "")
    (hnc : ¬(o.status = .cancelled ∨ o.payme_state = some (-1) ∨
        o.payme_state = some (-2)))
    (hp : o.participant_id ≠ 0) :
    ∃ o' p',
      cancelTransaction now_ms rid (some T) p_reason (some o) p
        = (.success rid (.cancelRes now_ms T (if wasPerformed o then -2 else -1)),
           some o', p')
      ∧ o'.status = .cancelled
      ∧ o'.payme_cancel_time = some now_ms
      ∧ (wasPerformed o = true →
          o'.payme_state = some (-2) ∧ o'.payme_perform_time = o.payme_perform_time
          ∧ p'.is_paid = false ∧ p'.paid_at = none)
      ∧ (wasPerformed o = false →
          o'.payme_state = some (-1) ∧ o'.payme_perform_time = some 0 ∧ p' = p)
      ∧ (p_reason = none →
          o'.payme_cancel_reason = some (if wasPerformed o then 5 else 3)) := by
  have hT' : strTruthy (some T) = true := by simp [strTruthy, hT]
  cases hW : wasPerformed o with
  | true =>
    refine ⟨{ o with
        status := OrderStatus.cancelled, payme_state := some (-2),
        payme_cancel_time := some now_ms,
        payme_cancel_reason := some (match p_reason with | some r => r | none => 5),
        payme_perform_time := o.payme_perform_time },
      { p with is_paid := false, paid_at := none }, ?_, rfl, rfl, ?_, ?_, ?_⟩
    · simp [cancelTransaction, hT', hnc, hW, hp]
    · intro _
      exact ⟨rfl, rfl, rfl, rfl⟩
    · intro h
      exact Bool.noConfusion h
    · intro h
      subst h
      rfl
  | false =>
    refine ⟨{ o with
        status := OrderStatus.cancelled, payme_state := some (-1),
        payme_cancel_time := some now_ms,
        payme_cancel_reason := some (match p_reason with | some r => r | none => 3),
        payme_perform_time := some 0 }, p, ?_, rfl, rfl, ?_, ?_, ?_⟩
    · simp [cancelTransaction, hT', hnc, hW, hp]
    · intro h
      exact Bool.noConfusion h
    · intro _
      exact ⟨rfl, rfl, rfl⟩
    · intro h
      subst h
      rfl

/-- The concrete performed (paid) order of the C5 witness. -/
def cancelPaidOrder : Order := { newOrder 1 7 500 100 "payme" with
  status := OrderStatus.paid, payme_transaction_id := some "T1",
  payme_create_time := some 900, payme_state := some 2,
  payme_perform_time := some 950 }

/-- C5 witness: cancelling a performed order. -/
theorem cancel_first_transition_witness :
    ∃ o' p',
      cancelTransaction 1000 none (some "T1") none (some cancelPaidOrder) ⟨7, true, some 950⟩
        = (.success none (.cancelRes 1000 "T1"
            (if wasPerformed cancelPaidOrder then -2 else -1)), some o', p')
      ∧ o'.status = .cancelled
      ∧ o'.payme_cancel_time = some 1000
      ∧ (wasPerformed cancelPaidOrder = true →
          o'.payme_state = some (-2)
          ∧ o'.payme_perform_time = cancelPaidOrder.payme_perform_time
          ∧ p'.is_paid = false ∧ p'.paid_at = none)
      ∧ (wasPerformed cancelPaidOrder = false →
          o'.payme_state = some (-1) ∧ o'.payme_perform_time = some 0
          ∧ p' = ⟨7, true, some 950⟩)
      ∧ (none = (none : Option Int) →
          o'.payme_cancel_reason = some (if wasPerformed cancelPaidOrder then 5 else 3)) :=
  cancel_first_transition 1000 none cancelPaidOrder ⟨7, true, some 950⟩ "T1" none
    (by decide) (by decide) (by decide)

/-- C6: Perform on a transaction whose state is cancelled (-1 or -2, or
whose order status is cancelled) replays the stored cancel_time and
state and mutates neither the order nor the buyer. -/
theorem perform_on_cancelled_no_mutation (now_ms : Int) (rid : Option Int)
    (o : Order) (p : Participant) (T : String) (st : Int)
    (hT : T ≠ "") (hst : o.payme_state = some st)
    (hc : st = -1 ∨ st = -2 ∨ o.status = .cancelled) :
    performTransaction now_ms rid (some T) (some o) p
      = (.success rid (.cancelRes (pyOrI o.payme_cancel_time 0) T st), some o, p) := by
  have hT' : strTruthy (some T) = true := by simp [strTruthy, hT]
  have hcond : o.payme_state = some (-1) ∨ o.payme_state = some (-2) ∨
      o.status = .cancelled := by
    rcases hc with h | h | h
    · left
      rw [hst, h]
    · right
      left
      rw [hst, h]
    · right
      right
      exact h
  simp [performTransaction, hT', hcond, hst]
  intro h1 h2 h3
  rcases hc with h | h | h
  · exact absurd h h1
  · exact absurd h h2
  · exact absurd h h3

/-- The concrete cancelled order of the C6 witness. -/
def performCancelledOrder : Order := { newOrder 1 7 500 100 "payme" with
  status := OrderStatus.cancelled, payme_transaction_id := some "T1",
  payme_create_time := some 900, payme_state := some (-1),
  payme_cancel_time := some 980, payme_cancel_reason := some 3 }

/-- C6 witness. -/
theorem perform_on_cancelled_no_mutation_witness :
    performTransaction 1000 none (some "T1") (some performCancelledOrder) ⟨7, false, none⟩
      = (.success none (.cancelRes (pyOrI performCancelledOrder.payme_cancel_time 0)
          "T1" (-1)), some performCancelledOrder, ⟨7, false, none⟩) :=
  perform_on_cancelled_no_mutation 1000 none performCancelledOrder ⟨7, false, none⟩
    "T1" (-1) (by decide) rfl (by decide)

/-- C7: Check on a bound transaction reports a strictly positive
create_time (backfilled from the order's creation timestamp when unset),
for cancelled states a strictly positive cancel_time (backfilled from the
last-update timestamp when unset), perform_time 0 for state -1 and the
stored perform_time (defaulting to create_time, hence positive) for
states 2 and -2, and a reason only in cancelled states. -/
theorem check_transaction_reporting (rid : Option Int) (o : Order) (T : String)
    (hT : T ≠ "") (hcr : 0 < o.created_at_ms) (hup : 0 < o.updated_at_ms) :
    checkTransaction rid (some T) (some o)
      = .success rid (.checkRes (checkCreateTime o) (checkPerformTime o)
          (if checkState o = -1 ∨ checkState o = -2 then checkCancelTime o else 0)
          T (checkState o) (checkReason o))
    ∧ 0 < checkCreateTime o
    ∧ ((o.payme_create_time = none ∨ o.payme_create_time = some 0) →
        checkCreateTime o = o.created_at_ms)
    ∧ ((checkState o = -1 ∨ checkState o = -2) → 0 < checkCancelTime o)
    ∧ ((checkState o = -1 ∨ checkState o = -2) →
        (o.payme_cancel_time = none ∨ o.payme_cancel_time = some 0) →
        checkCancelTime o = o.updated_at_ms)
    ∧ (checkState o = -1 → checkPerformTime o = 0)
    ∧ ((checkState o = 2 ∨ checkState o = -2) →
        0 < checkPerformTime o
        ∧ checkPerformTime o =
          (if pyOrI o.payme_perform_time 0 > 0 then pyOrI o.payme_perform_time 0
           else checkCreateTime o))
    ∧ (¬(checkState o = -1 ∨ checkState o = -2) → checkReason o = none) := by
  have hT' : strTruthy (some T) = true := by simp [strTruthy, hT]
  have hct : 0 < checkCreateTime o := by
    rw [checkCreateTime]
    split_ifs <;> omega
  refine ⟨?_, hct, ?_, ?_, ?_, ?_, ?_, ?_⟩
  · simp [checkTransaction, hT']
  · intro h
    rcases h with h | h <;> simp [checkCreateTime, pyOrI, h]
  · intro h
    rw [checkCancelTime]
    split_ifs with h1
    · exact hup
    · have hgt : ¬(pyOrI o.payme_cancel_time 0 ≤ 0) := fun hle => h1 ⟨h, hle⟩
      omega
  · intro h h0
    rw [checkCancelTime]
    have : pyOrI o.payme_cancel_time 0 = 0 := by
      rcases h0 with h0 | h0 <;> simp [pyOrI, h0]
    rw [if_pos ⟨h, by omega⟩]
  · intro h
    simp [checkPerformTime, h]
  · intro h
    have hval : checkPerformTime o =
        (if pyOrI o.payme_perform_time 0 > 0 then pyOrI o.payme_perform_time 0
         else checkCreateTime o) := by
      rcases h with h | h <;> simp [checkPerformTime, h]
    refine ⟨?_, hval⟩
    rw [hval]
    split_ifs <;> omega
  · intro h
    simp [checkReason, h]

/-- The concrete bound order of the C7 witness: performed (state 2) with
no recorded perform_time, so Check must fall back to create_time. -/
def checkWitnessOrder : Order := { newOrder 1 7 500 100 "payme" with
  status := OrderStatus.paid, payme_transaction_id := some "T1",
  payme_create_time := some 900, payme_state := some 2 }

/-- C7 witness. -/
theorem check_transaction_reporting_witness :
    checkTransaction none (some "T1") (some checkWitnessOrder)
      = .success none (.checkRes (checkCreateTime checkWitnessOrder)
          (checkPerformTime checkWitnessOrder)
          (if checkState checkWitnessOrder = -1 ∨ checkState checkWitnessOrder = -2 then
            checkCancelTime checkWitnessOrder else 0)
          "T1" (checkState checkWitnessOrder) (checkReason checkWitnessOrder))
    ∧ 0 < checkPerformTime checkWitnessOrder
    ∧ checkReason checkWitnessOrder = none := by
  have h := check_transaction_reporting none checkWitnessOrder "T1"
    (by decide) (by decide) (by decide)
  have hst : checkState checkWitnessOrder = 2 := by decide
  refine ⟨h.1, (h.2.2.2.2.2.2.1 (Or.inl hst)).1, h.2.2.2.2.2.2.2 ?_⟩
  rw [hst]
  decide

/-- C8: Statement rejects `from > to` with the invalid-params fault;
otherwise it returns exactly the transactions whose stored create_time
lies in the inclusive range `[from, to]` (characterised by the filter
equivalence, which excludes any transaction with create_time = to + 1),
each entry reporting cancel_time 0 and no reason unless the state is
cancelled, and perform_time 0 for non-performed states (given that
non-performed states carry no positive stored perform_time, which the
Create/Perform/Cancel paths maintain). -/
theorem statement_range_and_reporting (rid : Option Int) (from_ts to_ts : Int)
    (orders : List Order)
    (hinv : ∀ o ∈ orders,
      ¬(pyOrI o.payme_state 1 = 2 ∨ pyOrI o.payme_state 1 = -2) →
      pyOrI o.payme_perform_time 0 ≤ 0) :
    (from_ts > to_ts →
      getStatement rid (some from_ts) (some to_ts) orders
        = .error rid ERROR_INVALID_PARAMS (some "from>to"))
    ∧ (from_ts ≤ to_ts →
      getStatement rid (some from_ts) (some to_ts) orders
        = .success rid (.statement
            ((orders.filter (statementSelects from_ts to_ts)).map statementEntry)))
    ∧ (∀ o, statementSelects from_ts to_ts o = true ↔
        (o.payme_transaction_id.isSome = true
         ∧ ∃ ct, o.payme_create_time = some ct ∧ from_ts ≤ ct ∧ ct ≤ to_ts))
    ∧ (∀ o ∈ orders.filter (statementSelects from_ts to_ts),
        (statementEntry o).time = pyOrI o.payme_create_time 0
        ∧ (¬(pyOrI o.payme_state 1 = -1 ∨ pyOrI o.payme_state 1 = -2) →
            (statementEntry o).cancel_time = 0 ∧ (statementEntry o).reason = none)
        ∧ (¬(pyOrI o.payme_state 1 = 2 ∨ pyOrI o.payme_state 1 = -2) →
            (statementEntry o).perform_time = 0)) := by
  refine ⟨?_, ?_, ?_, ?_⟩
  · intro h
    simp [getStatement, h]
  · intro h
    have h' : ¬(from_ts > to_ts) := by omega
    simp [getStatement, h']
  · intro o
    rw [statementSelects]
    rcases o.payme_create_time with _ | ct
    · simp
    · simp
  · intro o ho
    have hmem := List.mem_filter.mp ho
    refine ⟨rfl, ?_, ?_⟩
    · intro h
      constructor
      · simp [statementEntry, h]
      · simp [statementEntry, h]
    · intro h
      have hle := hinv o hmem.1 h
      simp only [statementEntry]
      rw [if_neg (by omega)]

/-- A statement-witness transaction with create_time inside the range. -/
def stOrderIn : Order := { newOrder 1 7 500 100 "payme" with
  payme_transaction_id := some "T1", payme_create_time := some 10, payme_state := some 1 }

/-- A statement-witness transaction with create_time = to + 1, excluded. -/
def stOrderOut : Order := { newOrder 2 7 500 100 "payme" with
  payme_transaction_id := some "T2", payme_create_time := some 11, payme_state := some 1 }

/-- C8 witness: `Statement(0, 10)` keeps the create_time-10 transaction
and excludes the create_time-11 one. -/
theorem statement_range_and_reporting_witness :
    getStatement none (some 0) (some 10) [stOrderIn, stOrderOut]
      = .success none (.statement [statementEntry stOrderIn])
    ∧ statementSelects 0 10 stOrderIn = true
    ∧ statementSelects 0 10 stOrderOut = false := by
  have h := statement_range_and_reporting none 0 10 [stOrderIn, stOrderOut]
    (by decide)
  refine ⟨?_, by decide, by decide⟩
  rw [h.2.1 (by decide)]
  rfl

/-- C9: a Click Complete callback (phase 1, non-negative error code) on
an order neither paid nor cancelled whose stored prepare id differs from
the echoed one answers the transaction-not-found fault and mutates
neither the order nor the buyer. -/
theorem complete_prepare_mismatch (now_ms : Int) (o : Order) (p : Participant)
    (ctid : Int) (mtid : String) (mpid pp : Int) (err : Int)
    (herr : 0 ≤ err) (hnp : o.status ≠ .paid) (hnc : o.status ≠ .cancelled)
    (hstored : o.click_prepare_id = some pp) (hne : pp ≠ mpid) :
    handleComplete now_ms o p ctid mtid mpid err
      = ({ click_trans_id := ctid, merchant_trans_id := mtid,
           merchant_prepare_id := mpid, error := CLICK_ERROR_TRANSACTION_NOT_FOUND,
           error_note := "Prepare ID mismatch" }, o, p) := by
  have herr' : ¬(err < 0) := by omega
  have hmm : o.click_prepare_id ≠ some mpid := by
    rw [hstored]
    intro hc
    exact hne (Option.some_injective _ hc)
  simp [handleComplete, herr', hnp, hnc, hmm]

/-- The prepared order of the C9 witness (prepare id 1 stored). -/
def completeMismatchOrder : Order := { newOrder 1 7 500 100 "click" with
  click_trans_id := some 5, click_prepare_id := some 1 }

/-- C9 witness: echoed prepare id 2 ≠ stored 1. -/
theorem complete_prepare_mismatch_witness :
    handleComplete 1000 completeMismatchOrder ⟨7, false, none⟩ 5 "1" 2 0
      = ({ click_trans_id := 5, merchant_trans_id := "1",
           merchant_prepare_id := 2, error := CLICK_ERROR_TRANSACTION_NOT_FOUND,
           error_note := "Prepare ID mismatch" },
         completeMismatchOrder, ⟨7, false, none⟩) :=
  complete_prepare_mismatch 1000 completeMismatchOrder ⟨7, false, none⟩ 5 "1" 2 1 0
    (by decide) (by decide) (by decide) rfl (by decide)

end Bond
